import Mathlib

/-!
Verification of the room-classification and virtual-identity engine of
matrix-appservice-twilio (src/SmsBridge.js), as a shallow embedding.

The mutable field `this._adminRooms` (a JS object mapping room IDs to
AdminRoom instances) is modelled as an association list that preserves JS
insertion-order semantics for string keys: assigning to an existing key
replaces the value in place, assigning to a fresh key appends.  Transport
calls (`createRoom`, `getJoinedMembers`) are modelled by passing their
results as explicit arguments.
-/

namespace SmsBridgeModel

/-- JS runtime values that can be passed where the code expects a matrix
user ID string.  Non-string values model malformed input (for example the
`state_key` of an event being `undefined`). -/
inductive JSVal where
  | str (s : String)
  | num (n : Int)
  | boolV (b : Bool)
  | nullV
  | undef
deriving DecidableEq, Repr

/-- JS runtime errors surfaced by the embedded code.  `typeError` models a
TypeError such as calling `.startsWith` on `undefined`. -/
inductive JSError where
  | typeError
deriving DecidableEq, Repr

/-- JS loose equality `botId == handle` (SmsBridge.js line 87) where the left
operand is the bridge bot matrix user ID: a non-numeric string beginning
with `@`.  Such a string is loosely equal only to the equal string: `==`
against `null` or `undefined` is false, and against a number or boolean the
string coerces to `NaN`, so the comparison is false. -/
def looseEqBot (botId : String) (handle : JSVal) : Bool :=
  match handle with
  | JSVal.str s => botId == s
  | _ => false

/-- JS `String.prototype.startsWith`: `pre` is a prefix of `s`. -/
def jsStartsWith (s pre : String) : Bool :=
  pre.data.isPrefixOf s.data

/-- JS `String.prototype.endsWith`: `post` is a suffix of `s`. -/
def jsEndsWith (s post : String) : Bool :=
  post.data.isSuffixOf s.data

/-- JS truthiness of a nullable string (`adminRoomOwner` is `null` by
default): `null` and the empty string are falsy, any other string truthy. -/
def jsTruthyStr : Option String → Bool
  | none => false
  | some s => !(s == "")

/-- JS short-circuit `a || b` on nullable strings, as in
`otherUserId || adminRoomOwner` (SmsBridge.js line 178): yields `a` when `a`
is a truthy string, else `b`. -/
def jsOr (a b : Option String) : Option String :=
  match a with
  | some s => if s == "" then b else some s
  | none => b

/-- JS `Array.prototype.indexOf`: index of the first occurrence of `x` in
`l`, or `-1` when absent (SmsBridge.js line 174). -/
def jsIndexOf (l : List String) (x : String) : Int :=
  match l with
  | [] => -1
  | y :: ys =>
      if y == x then 0
      else
        let r := jsIndexOf ys x
        if r == -1 then -1 else r + 1

/-- isBridgeUser (SmsBridge.js lines 86-88):
`this.getBot().getUserId() == handle || (handle.startsWith("@_sms_") &&
handle.endsWith(":" + this._config.homeserver.domain))`.
When `handle` is not a string and is not loosely equal to the bot ID, the
call `handle.startsWith(...)` throws a TypeError. -/
def isBridgeUser (botId domain : String) (handle : JSVal) : Except JSError Bool :=
  if looseEqBot botId handle then Except.ok true
  else
    match handle with
    | JSVal.str h => Except.ok (jsStartsWith h "@_sms_" && jsEndsWith h (":" ++ domain))
    | _ => Except.error JSError.typeError

/-- Localpart of the virtual SMS user for a phone number, from getSmsIntent
(SmsBridge.js line 78): `"_sms_" + phoneNumber`. -/
def smsLocalpart (phoneNumber : String) : String :=
  "_sms_" ++ phoneNumber

/-- Modelled from the spec: the transport derives the full matrix user ID of
an intent created from a localpart as `"@" + localpart + ":" + domain`
(the glossary names virtual identities such as `@_sms_15551234567:example.org`);
the library call `getIntentFromLocalpart` itself is not under src/. -/
def smsUserId (phoneNumber domain : String) : String :=
  "@" ++ smsLocalpart phoneNumber ++ ":" ++ domain

/-- Modelled from the spec: an AdminRoom (class file matrix/AdminRoom.js is
not under src/) as the record the spec calls AdminSession, holding the room
ID and the owner passed to its constructor at SmsBridge.js line 178.  The
owner is `Option String` because the constructor argument
`otherUserId || adminRoomOwner` can be `undefined`. -/
structure AdminRoom where
  roomId : String
  owner : Option String
deriving DecidableEq, Repr

/-- The registry `this._adminRooms`, in key insertion order. -/
abbrev Dir := List (String × AdminRoom)

/-- Assignment `this._adminRooms[roomId] = s`: replace in place when the key
exists, append otherwise (JS object insertion-order semantics). -/
def dirPut (d : Dir) (roomId : String) (s : AdminRoom) : Dir :=
  if d.any (fun p => p.1 == roomId) then
    d.map (fun p => if p.1 == roomId then (roomId, s) else p)
  else
    d ++ [(roomId, s)]

/-- Key lookup `this._adminRooms[roomId]`. -/
def dirGet (d : Dir) (roomId : String) : Option AdminRoom :=
  (d.find? (fun p => p.1 == roomId)).map Prod.snd

/-- The owner scan inside getOrCreateAdminRoom (SmsBridge.js lines 91-96):
iterate the keys in order and return the first room whose
`owner === userId`.  Entries are never falsy in the model, so the defensive
`continue` is a no-op. -/
def getByOwner (d : Dir) (userId : String) : Option AdminRoom :=
  (d.find? (fun p => p.2.owner == some userId)).map Prod.snd

/-- Number of directory entries stored under a room ID. -/
def countKey (d : Dir) (roomId : String) : Nat :=
  (d.filter (fun p => p.1 == roomId)).length

/-- Number of directory entries whose session owner is the given user. -/
def countOwner (d : Dir) (userId : String) : Nat :=
  (d.filter (fun p => p.2.owner == some userId)).length

/-- Result of one `_processRoom` call: the updated registry and whether the
welcome notice was sent to the room. -/
structure ProcOut where
  dir : Dir
  welcomeSent : Bool
deriving DecidableEq, Repr

/-- processRoom embeds `_processRoom` (SmsBridge.js lines 170-188) after the
member fetch resolved with `roomMemberIds` (the keys of the
getJoinedMembers result):
`var botIdx = roomMemberIds.indexOf(botUserId);`
`if (roomMemberIds.length == 2 || adminRoomOwner) {`
`  var otherUserId = roomMemberIds[botIdx == 0 ? 1 : 0];`
`  this._adminRooms[roomId] = new AdminRoom(roomId, this, otherUserId || adminRoomOwner);`
`  if (newRoom) sendText(roomId, welcome); }`. -/
def processRoom (botId roomId : String) (roomMemberIds : List String)
    (adminRoomOwner : Option String := none) (newRoom : Bool := false)
    (d : Dir) : ProcOut :=
  let botIdx := jsIndexOf roomMemberIds botId
  if (roomMemberIds.length == 2) || jsTruthyStr adminRoomOwner then
    let otherUserId := roomMemberIds.get? (if botIdx == 0 then 1 else 0)
    let owner := jsOr otherUserId adminRoomOwner
    { dir := dirPut d roomId { roomId := roomId, owner := owner }
      welcomeSent := newRoom }
  else
    { dir := d, welcomeSent := false }

/-- Result of one getOrCreateAdminRoom call: the resolved room, the updated
registry, whether a welcome notice was sent, and how many rooms were
created through the transport. -/
structure CreateOut where
  room : AdminRoom
  dir : Dir
  welcomeSent : Bool
  roomsCreated : Nat
deriving DecidableEq, Repr

/-- getOrCreateAdminRoom (SmsBridge.js lines 90-115): scan for an existing
session owned by `userId`; on a miss, create a room (the transport result is
the fresh `freshRoomId`, whose joined members then resolve to
`fetchedMembers`) and classify it with `adminRoomOwner = userId` and
`newRoom` left at its default.  If the registry still has no entry for the
new room, throw `Could not create admin room`. -/
def getOrCreateAdminRoom (botId userId freshRoomId : String)
    (fetchedMembers : List String) (d : Dir) : Except String CreateOut :=
  match getByOwner d userId with
  | some room =>
      Except.ok { room := room, dir := d, welcomeSent := false, roomsCreated := 0 }
  | none =>
      let out := processRoom botId freshRoomId fetchedMembers (some userId) false d
      match dirGet out.dir freshRoomId with
      | some room =>
          Except.ok { room := room, dir := out.dir, welcomeSent := out.welcomeSent
                      roomsCreated := 1 }
      | none => Except.error ("Could not create admin room for " ++ userId)

/-- Final registry and number of created rooms after an interleaving of two
concurrent calls. -/
structure RaceOut where
  dir : Dir
  roomsCreated : Nat
deriving DecidableEq, Repr

/-- The interleaving of two concurrent `getOrCreateAdminRoom(userId)` calls
in which both owner scans (SmsBridge.js lines 91-96) run before either
`createRoom` promise resolves: the code has no per-owner guard, so each call
then creates its own room and registers it via `_processRoom` with the forced
owner.  `r1` and `r2` are the two room IDs returned by the transport and
`members1`, `members2` the member lists fetched for them. -/
def raceTwoCreates (botId userId r1 r2 : String)
    (members1 members2 : List String) (d : Dir) : RaceOut :=
  let lookup1 := getByOwner d userId
  let lookup2 := getByOwner d userId
  let afterFirst :=
    if lookup1.isNone then (processRoom botId r1 members1 (some userId) false d).dir
    else d
  let afterSecond :=
    if lookup2.isNone then (processRoom botId r2 members2 (some userId) false afterFirst).dir
    else afterFirst
  { dir := afterSecond
    roomsCreated := (if lookup1.isNone then 1 else 0) + (if lookup2.isNone then 1 else 0) }

/-- Content of a matrix event; `membership` may be absent. -/
structure EvContent where
  membership : Option String
deriving DecidableEq, Repr

/-- A matrix event as `_onEvent` reads it: `state_key` and `content` may be
`undefined` on malformed payloads. -/
structure MatrixEvent where
  type : String
  sender : String
  room_id : String
  state_key : Option String
  content : Option EvContent
deriving DecidableEq, Repr

/-- The routing decision `_onEvent` reaches synchronously. -/
inductive RouteAction where
  | inviteJoin
  | relayMessage
  | noop
deriving DecidableEq, Repr

/-- View of a nullable string as the JS value `_onEvent` passes on. -/
def jsValOfOpt : Option String → JSVal
  | some s => JSVal.str s
  | none => JSVal.undef

/-- onEventSync embeds the synchronous body of `_onEvent` (SmsBridge.js
lines 206-220).  It first dispatches to a registered admin room
(`_tryProcessAdminEvent`, returned as the Bool component), then evaluates
`event.type === "m.room.member" && event.content.membership === "invite" &&
this.isBridgeUser(event.state_key)`: reading `.membership` throws when
`content` is `undefined`, and `isBridgeUser` throws when `state_key` is
`undefined`; otherwise it falls to the
`event.type === "m.room.message" && event.sender !== botUserId` branch or to
the default. -/
def onEventSync (botId domain : String) (d : Dir) (ev : MatrixEvent) :
    Except JSError (Bool × RouteAction) :=
  let adminDispatched := (dirGet d ev.room_id).isSome
  let cond1 : Except JSError Bool :=
    if ev.type == "m.room.member" then
      match ev.content with
      | none => Except.error JSError.typeError
      | some c =>
          if c.membership == some "invite" then
            isBridgeUser botId domain (jsValOfOpt ev.state_key)
          else Except.ok false
    else Except.ok false
  match cond1 with
  | Except.error e => Except.error e
  | Except.ok true => Except.ok (adminDispatched, RouteAction.inviteJoin)
  | Except.ok false =>
      if ev.type == "m.room.message" && !(ev.sender == botId) then
        Except.ok (adminDispatched, RouteAction.relayMessage)
      else
        Except.ok (adminDispatched, RouteAction.noop)

/-! Helper lemmas about the registry. -/

theorem find_append_single {α : Type} (p : α → Bool) (d : List α) (x : α)
    (hall : ∀ y ∈ d, p y = false) (hx : p x = true) :
    (d ++ [x]).find? p = some x := by
  have hnone : d.find? p = none := by
    rw [List.find?_eq_none]
    intro y hy
    simp [hall y hy]
  simp [List.find?_append, hnone, hx]

theorem find_map_replace (r : String) (s : AdminRoom) (q : String × AdminRoom → Bool)
    (d : Dir) (hq : q (r, s) = true)
    (hother : ∀ p ∈ d, p.1 ≠ r → q p = false)
    (hany : d.any (fun p => p.1 == r) = true) :
    (d.map (fun p => if p.1 == r then (r, s) else p)).find? q = some (r, s) := by
  induction d with
  | nil => simp at hany
  | cons p d ih =>
    rw [List.map_cons]
    by_cases h : p.1 = r
    · have hfp : (if p.1 == r then (r, s) else p) = (r, s) := by simp [h]
      rw [hfp]
      exact List.find?_cons_of_pos _ hq
    · have hqp : q p = false := hother p (List.mem_cons_self p d) h
      have hany2 : d.any (fun p => p.1 == r) = true := by
        rcases List.any_eq_true.mp hany with ⟨y, hy, hyk⟩
        rcases List.mem_cons.mp hy with hyp | hyd
        · exact absurd (by simpa [hyp] using hyk) h
        · exact List.any_eq_true.mpr ⟨y, hyd, hyk⟩
      have hfp : (if p.1 == r then (r, s) else p) = p := by simp [h]
      rw [hfp, List.find?_cons_of_neg _ (by simp [hqp])]
      exact ih (fun y hy hyr => hother y (List.mem_cons_of_mem p hy) hyr) hany2

theorem dirPut_find_key (d : Dir) (r : String) (s : AdminRoom) :
    (dirPut d r s).find? (fun p => p.1 == r) = some (r, s) := by
  unfold dirPut
  by_cases hany : d.any (fun p => p.1 == r) = true
  · rw [if_pos hany]
    exact find_map_replace r s _ d (by simp) (fun p _ hpr => by simp [hpr]) hany
  · rw [if_neg hany]
    refine find_append_single _ d (r, s) ?_ (by simp)
    intro y hy
    by_contra hc
    exact hany (List.any_eq_true.mpr ⟨y, hy, by simpa using hc⟩)

theorem dirGet_dirPut_self (d : Dir) (r : String) (s : AdminRoom) :
    dirGet (dirPut d r s) r = some s := by
  rw [dirGet, dirPut_find_key]
  rfl

theorem getByOwner_dirPut (d : Dir) (r : String) (s : AdminRoom) (u : String)
    (hs : s.owner = some u)
    (howner : ∀ p ∈ d, p.2.owner ≠ some u) :
    getByOwner (dirPut d r s) u = some s := by
  unfold getByOwner dirPut
  by_cases hany : d.any (fun p => p.1 == r) = true
  · rw [if_pos hany, find_map_replace r s _ d (by simp [hs]) (fun p hp _ => by simp [howner p hp]) hany]
    rfl
  · rw [if_neg hany, find_append_single _ d (r, s) (fun y hy => by simp [howner y hy]) (by simp [hs])]
    rfl

theorem dirPut_key_eq (d : Dir) (r : String) (s : AdminRoom) :
    ∀ p ∈ dirPut d r s, p.1 = r → p = (r, s) := by
  intro p hp hpr
  unfold dirPut at hp
  by_cases hany : d.any (fun q => q.1 == r) = true
  · rw [if_pos hany] at hp
    rcases List.mem_map.mp hp with ⟨q, _, hq⟩
    by_cases hqr : q.1 = r
    · simpa [hqr] using hq.symm
    · have : (q.1 == r) = false := by simp [hqr]
      rw [this] at hq
      simp at hq
      exact absurd (hq ▸ hpr) hqr
  · rw [if_neg hany] at hp
    rcases List.mem_append.mp hp with hpd | hps
    · exfalso
      exact hany (List.any_eq_true.mpr ⟨p, hpd, by simp [hpr]⟩)
    · simpa using hps

theorem dirPut_self_stable (d : Dir) (r : String) (s : AdminRoom)
    (hany : d.any (fun p => p.1 == r) = true)
    (huniq : ∀ p ∈ d, p.1 = r → p = (r, s)) :
    dirPut d r s = d := by
  unfold dirPut
  rw [if_pos hany]
  have : ∀ p ∈ d, (if p.1 == r then (r, s) else p) = p := by
    intro p hp
    by_cases hpr : p.1 = r
    · simp [hpr, (huniq p hp hpr).symm]
    · simp [hpr]
  rw [List.map_congr_left this]
  exact List.map_id' d

theorem dirPut_any_key (d : Dir) (r : String) (s : AdminRoom) :
    (dirPut d r s).any (fun p => p.1 == r) = true :=
  List.any_eq_true.mpr
    ⟨(r, s), List.mem_of_find?_eq_some (dirPut_find_key d r s), by simp⟩

theorem dirPut_idem (d : Dir) (r : String) (s : AdminRoom) :
    dirPut (dirPut d r s) r s = dirPut d r s :=
  dirPut_self_stable (dirPut d r s) r s (dirPut_any_key d r s) (dirPut_key_eq d r s)

theorem countKey_dirPut (d : Dir) (r : String) (s : AdminRoom)
    (hkey : countKey d r ≤ 1) :
    countKey (dirPut d r s) r = 1 := by
  unfold countKey dirPut
  by_cases hany : d.any (fun p => p.1 == r) = true
  · rw [if_pos hany, List.filter_map, List.length_map]
    have hcong : d.filter ((fun p : String × AdminRoom => p.1 == r) ∘
        (fun p => if p.1 == r then (r, s) else p)) = d.filter (fun p => p.1 == r) := by
      apply List.filter_congr
      intro p _
      by_cases hpr : p.1 = r <;> simp [hpr]
    rw [hcong]
    rcases List.any_eq_true.mp hany with ⟨p, hp, hpk⟩
    have hmem : p ∈ d.filter (fun p => p.1 == r) := List.mem_filter.mpr ⟨hp, hpk⟩
    have hpos : 0 < (d.filter (fun p => p.1 == r)).length :=
      List.length_pos.mpr (List.ne_nil_of_mem hmem)
    exact Nat.le_antisymm hkey hpos
  · rw [if_neg hany, List.filter_append]
    have hnil : d.filter (fun p => p.1 == r) = [] := by
      rw [List.filter_eq_nil_iff]
      intro p hp
      by_contra hc
      exact hany (List.any_eq_true.mpr ⟨p, hp, by simpa using hc⟩)
    simp [hnil]

/-! Computation lemmas about processRoom. -/

theorem processRoom_two_members (botId other roomId : String) (newRoom : Bool) (d : Dir)
    (hbot : other ≠ botId) (hne : other ≠ "")
    (members : List String)
    (hmem : members = [botId, other] ∨ members = [other, botId]) :
    processRoom botId roomId members none newRoom d =
      { dir := dirPut d roomId { roomId := roomId, owner := some other }
        welcomeSent := newRoom } := by
  rcases hmem with h | h <;> subst h <;>
    simp [processRoom, jsIndexOf, jsTruthyStr, jsOr, hbot, hne]

theorem processRoom_not_new_no_welcome (botId roomId : String) (members : List String)
    (fo : Option String) (d : Dir) :
    (processRoom botId roomId members fo false d).welcomeSent = false := by
  unfold processRoom
  by_cases h : ((members.length == 2) || jsTruthyStr fo) = true <;> simp [h]

/-! Theorems for the claims. -/

/-- C1: for every member set of size exactly two containing the bridge bot
(either key order of the getJoinedMembers result), classifying the room with
no forced owner registers an administrative session for that room owned by
the sole non-bot member, and the owner scan used by getOrCreateAdminRoom
then resolves that owner to a session with that owner and the classified
room ID, provided no session for that owner was already registered. -/
theorem classify_two_member_room_registers_and_lookup
    (botId other roomId : String) (members : List String) (d : Dir)
    (hbot : other ≠ botId) (hne : other ≠ "")
    (hmem : members = [botId, other] ∨ members = [other, botId])
    (howner : ∀ p ∈ d, p.2.owner ≠ some other) :
    dirGet (processRoom botId roomId members none false d).dir roomId =
        some { roomId := roomId, owner := some other } ∧
      getByOwner (processRoom botId roomId members none false d).dir other =
        some { roomId := roomId, owner := some other } := by
  rw [processRoom_two_members botId other roomId false d hbot hne members hmem]
  exact ⟨dirGet_dirPut_self d roomId _, getByOwner_dirPut d roomId _ other rfl howner⟩

/-- Witness for C1 at a concrete two-member room. -/
theorem classify_two_member_room_registers_and_lookup_witness :
    dirGet (processRoom "@smsbot:example.org" "!admin:example.org"
        ["@smsbot:example.org", "@alice:example.org"] none false []).dir "!admin:example.org" =
      some { roomId := "!admin:example.org", owner := some "@alice:example.org" } ∧
    getByOwner (processRoom "@smsbot:example.org" "!admin:example.org"
        ["@smsbot:example.org", "@alice:example.org"] none false []).dir "@alice:example.org" =
      some { roomId := "!admin:example.org", owner := some "@alice:example.org" } :=
  classify_two_member_room_registers_and_lookup
    "@smsbot:example.org" "@alice:example.org" "!admin:example.org"
    ["@smsbot:example.org", "@alice:example.org"] []
    (by decide) (by decide) (Or.inl rfl) (by simp)

/-- C3: classifying the same room twice with the same member list, with
`newRoom` true only on the first call, leaves the registry of the first call
unchanged, yields exactly one directory entry for the room, and sends the
welcome notice at most once across both calls. -/
theorem classify_twice_idempotent
    (botId roomId : String) (members : List String) (fo : Option String) (d : Dir)
    (hadm : ((members.length == 2) || jsTruthyStr fo) = true)
    (hkey : countKey d roomId ≤ 1) :
    (processRoom botId roomId members fo false
        (processRoom botId roomId members fo true d).dir).dir =
      (processRoom botId roomId members fo true d).dir ∧
    countKey (processRoom botId roomId members fo true d).dir roomId = 1 ∧
    ((if (processRoom botId roomId members fo true d).welcomeSent then 1 else 0) +
        (if (processRoom botId roomId members fo false
          (processRoom botId roomId members fo true d).dir).welcomeSent then 1 else 0)) ≤ 1 := by
  have hwelcome := processRoom_not_new_no_welcome botId roomId members fo
    (processRoom botId roomId members fo true d).dir
  unfold processRoom
  rw [if_pos hadm, if_pos hadm]
  refine ⟨dirPut_idem d roomId _, countKey_dirPut d roomId _ hkey, ?_⟩
  simp

/-- Witness for C3 at a concrete two-member room. -/
theorem classify_twice_idempotent_witness :
    (processRoom "@smsbot:example.org" "!admin:example.org"
        ["@smsbot:example.org", "@alice:example.org"] none false
        (processRoom "@smsbot:example.org" "!admin:example.org"
          ["@smsbot:example.org", "@alice:example.org"] none true []).dir).dir =
      (processRoom "@smsbot:example.org" "!admin:example.org"
        ["@smsbot:example.org", "@alice:example.org"] none true []).dir ∧
    countKey (processRoom "@smsbot:example.org" "!admin:example.org"
        ["@smsbot:example.org", "@alice:example.org"] none true []).dir "!admin:example.org" = 1 ∧
    ((if (processRoom "@smsbot:example.org" "!admin:example.org"
          ["@smsbot:example.org", "@alice:example.org"] none true []).welcomeSent then 1 else 0) +
        (if (processRoom "@smsbot:example.org" "!admin:example.org"
          ["@smsbot:example.org", "@alice:example.org"] none false
          (processRoom "@smsbot:example.org" "!admin:example.org"
            ["@smsbot:example.org", "@alice:example.org"] none true []).dir).welcomeSent
          then 1 else 0)) ≤ 1 :=
  classify_twice_idempotent "@smsbot:example.org" "!admin:example.org"
    ["@smsbot:example.org", "@alice:example.org"] none [] (by decide) (by decide)

/-- C4: a member list of any length other than two, with no forced owner,
classifies as non-administrative: the registry is returned unchanged and no
welcome notice is sent (the embedded body is total, so no error is raised). -/
theorem classify_non_admin_leaves_directory
    (botId roomId : String) (members : List String) (newRoom : Bool) (d : Dir)
    (hlen : members.length ≠ 2) :
    processRoom botId roomId members none newRoom d = { dir := d, welcomeSent := false } := by
  simp [processRoom, jsTruthyStr, hlen]

/-- Witness for C4 at an empty member list. -/
theorem classify_non_admin_leaves_directory_witness :
    processRoom "@smsbot:example.org" "!big:example.org"
        ["@a:example.org", "@b:example.org", "@smsbot:example.org"] none true
        [("!admin:example.org", { roomId := "!admin:example.org", owner := some "@x:example.org" })] =
      { dir := [("!admin:example.org",
          { roomId := "!admin:example.org", owner := some "@x:example.org" })]
        welcomeSent := false } :=
  classify_non_admin_leaves_directory "@smsbot:example.org" "!big:example.org"
    ["@a:example.org", "@b:example.org", "@smsbot:example.org"] true
    [("!admin:example.org", { roomId := "!admin:example.org", owner := some "@x:example.org" })]
    (by decide)

/-- C2 counterexample: with forced owner `@bob` but a two-member list whose
non-bot member is `@alice`, the registered session is owned by `@alice`, not
by the forced owner, because line 178 evaluates `otherUserId || adminRoomOwner`
and `otherUserId` wins. -/
theorem forced_owner_overridden_counterexample :
    dirGet (processRoom "@smsbot:example.org" "!r:example.org"
        ["@smsbot:example.org", "@alice:example.org"] (some "@bob:example.org") false []).dir
        "!r:example.org" =
      some { roomId := "!r:example.org", owner := some "@alice:example.org" } ∧
    (some "@alice:example.org" : Option String) ≠ some "@bob:example.org" := by
  decide

/-- C2 amended: when a forced owner is present (a nonempty string), the room
is always classified administrative, and the owner equals the forced owner
exactly when the member list offers no other member at the selected index, as
in the room-creation flow where only the bot has joined (empty or bot-only
member list); a present member at that index takes precedence. -/
theorem classify_forced_owner_amended
    (botId roomId fo : String) (members : List String) (newRoom : Bool) (d : Dir)
    (hfo : fo ≠ "") :
    (dirGet (processRoom botId roomId members (some fo) newRoom d).dir roomId).isSome = true ∧
    ((members = [] ∨ members = [botId]) →
      dirGet (processRoom botId roomId members (some fo) newRoom d).dir roomId =
        some { roomId := roomId, owner := some fo }) := by
  constructor
  · have hc : ((members.length == 2) || jsTruthyStr (some fo)) = true := by
      simp [jsTruthyStr, hfo]
    unfold processRoom
    rw [if_pos hc]
    simp [dirGet_dirPut_self]
  · rintro (h | h) <;> subst h <;>
      simp [processRoom, jsIndexOf, jsTruthyStr, jsOr, hfo, dirGet_dirPut_self]

/-- Witness for the amended C2 in the room-creation flow: only the bot has
joined and the forced owner becomes the session owner. -/
theorem classify_forced_owner_amended_witness :
    (dirGet (processRoom "@smsbot:example.org" "!new:example.org" ["@smsbot:example.org"]
        (some "@bob:example.org") false []).dir "!new:example.org").isSome = true ∧
    ((["@smsbot:example.org"] = ([] : List String) ∨
        ["@smsbot:example.org"] = ["@smsbot:example.org"]) →
      dirGet (processRoom "@smsbot:example.org" "!new:example.org" ["@smsbot:example.org"]
          (some "@bob:example.org") false []).dir "!new:example.org" =
        some { roomId := "!new:example.org", owner := some "@bob:example.org" }) :=
  classify_forced_owner_amended "@smsbot:example.org" "!new:example.org" "@bob:example.org"
    ["@smsbot:example.org"] false [] (by decide)

/-- C5 counterexample: a two-member room that does not contain the bot and
has no forced owner is not rejected: the code silently registers an
administrative session whose owner is the member at index 0 (since
`indexOf` returned `-1`, the code reads index 0). -/
theorem degenerate_two_members_registers_counterexample :
    processRoom "@smsbot:example.org" "!r:example.org"
        ["@alice:example.org", "@bob:example.org"] none false [] =
      { dir := [("!r:example.org",
          { roomId := "!r:example.org", owner := some "@alice:example.org" })]
        welcomeSent := false } := by
  decide

/-- C5 amended: for every two-member list with neither member equal to the
bot and no forced owner, classification does not fail: it registers an
administrative session whose owner is coerced to the first member. -/
theorem classify_two_nonbot_members_coerced
    (botId a b roomId : String) (newRoom : Bool) (d : Dir)
    (ha : a ≠ botId) (hb : b ≠ botId) (hne : a ≠ "") :
    dirGet (processRoom botId roomId [a, b] none newRoom d).dir roomId =
      some { roomId := roomId, owner := some a } := by
  simp [processRoom, jsIndexOf, jsTruthyStr, jsOr, ha, hb, hne, dirGet_dirPut_self]

/-- Witness for the amended C5. -/
theorem classify_two_nonbot_members_coerced_witness :
    dirGet (processRoom "@smsbot:example.org" "!r:example.org"
        ["@alice:example.org", "@bob:example.org"] none false []).dir "!r:example.org" =
      some { roomId := "!r:example.org", owner := some "@alice:example.org" } :=
  classify_two_nonbot_members_coerced "@smsbot:example.org" "@alice:example.org"
    "@bob:example.org" "!r:example.org" false [] (by decide) (by decide) (by decide)

/-- C6 counterexample: on the non-string input `undefined` the code throws a
TypeError (`undefined.startsWith` at line 87) instead of returning false. -/
theorem isBridgeUser_nonstring_throws_counterexample :
    isBridgeUser "@smsbot:example.org" "example.org" JSVal.undef =
      Except.error JSError.typeError := rfl

/-- C6 amended: for every string input, isBridgeUser does not throw, and it
returns false whenever the string is neither the bridge bot identity nor a
match of the virtual-SMS convention; on a non-string input it throws a
TypeError. -/
theorem isBridgeUser_string_no_throw
    (botId domain h : String) (hne : h ≠ botId)
    (hconv : (jsStartsWith h "@_sms_" && jsEndsWith h (":" ++ domain)) = false) :
    isBridgeUser botId domain (JSVal.str h) = Except.ok false := by
  unfold isBridgeUser looseEqBot
  have hb : (botId == h) = false := by simp [Ne.symm hne]
  simp [hb, hconv]

/-- Witness for the amended C6 at an unrelated plain user ID. -/
theorem isBridgeUser_string_no_throw_witness :
    isBridgeUser "@smsbot:example.org" "example.org" (JSVal.str "@alice:example.org") =
      Except.ok false :=
  isBridgeUser_string_no_throw "@smsbot:example.org" "example.org" "@alice:example.org"
    (by decide) (by decide)

/-! Prefix and suffix facts about the virtual-SMS naming convention. -/

theorem smsUserId_startsWith (phone domain : String) :
    jsStartsWith (smsUserId phone domain) "@_sms_" = true := by
  unfold jsStartsWith smsUserId smsLocalpart
  rw [ List.isPrefixOf_iff_prefix]
  have h1 : "@_sms_".data = "@".data ++ "_sms_".data := by decide
  have h2 : ("@" ++ ("_sms_" ++ phone) ++ ":" ++ domain).data
      = "@_sms_".data ++ (phone.data ++ (":".data ++ domain.data)) := by
    simp [String.data_append, h1, List.append_assoc]
  rw [h2]
  exact List.prefix_append _ _

theorem smsUserId_endsWith (phone domain : String) :
    jsEndsWith (smsUserId phone domain) (":" ++ domain) = true := by
  unfold jsEndsWith smsUserId smsLocalpart
  rw [List.isSuffixOf_iff_suffix]
  have h2 : ("@" ++ ("_sms_" ++ phone) ++ ":" ++ domain).data
      = ("@".data ++ ("_sms_".data ++ phone.data)) ++ (":" ++ domain).data := by
    simp only [String.data_append, List.append_assoc]
  rw [h2]
  exact List.suffix_append _ _

/-- C7: isBridgeUser accepts the bridge bot identity and the full user ID of
every virtual identity produced for a digit-string phone number, and rejects
(with false, without throwing) any string that is not the bot and does not
carry both the `@_sms_` prefix and the configured domain suffix. -/
theorem virtual_identity_recognition
    (botId domain phone h : String)
    (hdigits : phone.data.all Char.isDigit = true)
    (hne : h ≠ botId)
    (hconv : (jsStartsWith h "@_sms_" && jsEndsWith h (":" ++ domain)) = false) :
    isBridgeUser botId domain (JSVal.str botId) = Except.ok true ∧
    isBridgeUser botId domain (JSVal.str (smsUserId phone domain)) = Except.ok true ∧
    isBridgeUser botId domain (JSVal.str h) = Except.ok false := by
  refine ⟨?_, ?_, ?_⟩
  · simp [isBridgeUser, looseEqBot]
  · unfold isBridgeUser looseEqBot
    by_cases hb : (botId == smsUserId phone domain) = true
    · simp [hb]
    · simp [hb, smsUserId_startsWith, smsUserId_endsWith]
  · unfold isBridgeUser looseEqBot
    have hb : (botId == h) = false := by simp [Ne.symm hne]
    simp [hb, hconv]

/-- Witness for C7 at the phone number 15551234567 and an unrelated user. -/
theorem virtual_identity_recognition_witness :
    isBridgeUser "@smsbot:example.org" "example.org" (JSVal.str "@smsbot:example.org") =
      Except.ok true ∧
    isBridgeUser "@smsbot:example.org" "example.org"
        (JSVal.str (smsUserId "15551234567" "example.org")) = Except.ok true ∧
    isBridgeUser "@smsbot:example.org" "example.org" (JSVal.str "@alice:example.org") =
      Except.ok false :=
  virtual_identity_recognition "@smsbot:example.org" "example.org" "15551234567"
    "@alice:example.org" (by decide) (by decide) (by decide)

/-- C8 counterexample: from an empty registry, the interleaving in which both
calls run the owner scan before either room creation resolves makes two
rooms and leaves two sessions owned by the same user, refuting the claim
that creation is serialized per owner. -/
theorem unguarded_race_two_sessions_counterexample :
    (raceTwoCreates "@smsbot:example.org" "@alice:example.org" "!r1:example.org"
        "!r2:example.org" ["@smsbot:example.org"] ["@smsbot:example.org"] []).roomsCreated = 2 ∧
    countOwner (raceTwoCreates "@smsbot:example.org" "@alice:example.org" "!r1:example.org"
        "!r2:example.org" ["@smsbot:example.org"] ["@smsbot:example.org"] []).dir
        "@alice:example.org" = 2 := by
  decide

/-- C8 amended: getOrCreateAdminRoom has no per-owner creation guard, so for
every owner and every pair of distinct fresh room IDs, the interleaving of
two simultaneous calls in which both owner scans precede both registrations
creates two rooms and ends with two AdminSession entries owned by that
owner. -/
theorem unguarded_race_creates_two_sessions
    (botId userId r1 r2 : String)
    (hu : userId ≠ "") (hr : r1 ≠ r2) :
    (raceTwoCreates botId userId r1 r2 [botId] [botId] []).roomsCreated = 2 ∧
    countOwner (raceTwoCreates botId userId r1 r2 [botId] [botId] []).dir userId = 2 := by
  simp [raceTwoCreates, getByOwner, processRoom, jsIndexOf, jsTruthyStr, jsOr,
    dirPut, countOwner, hu, hr]

/-- Witness for the amended C8. -/
theorem unguarded_race_creates_two_sessions_witness :
    (raceTwoCreates "@smsbot:example.org" "@bob:example.org" "!x:example.org"
        "!y:example.org" ["@smsbot:example.org"] ["@smsbot:example.org"] []).roomsCreated = 2 ∧
    countOwner (raceTwoCreates "@smsbot:example.org" "@bob:example.org" "!x:example.org"
        "!y:example.org" ["@smsbot:example.org"] ["@smsbot:example.org"] []).dir
        "@bob:example.org" = 2 :=
  unguarded_race_creates_two_sessions "@smsbot:example.org" "@bob:example.org"
    "!x:example.org" "!y:example.org" (by decide) (by decide)

/-- Helper: on a string argument isBridgeUser always returns a value. -/
theorem isBridgeUser_str_ok (botId domain s : String) :
    ∃ b, isBridgeUser botId domain (JSVal.str s) = Except.ok b := by
  unfold isBridgeUser looseEqBot
  by_cases h : (botId == s) = true <;> simp [h]

/-- C9 counterexample: a membership event whose content is missing makes
`_onEvent` throw a TypeError synchronously at `event.content.membership`
(line 211); nothing in `_onEvent` catches it. -/
theorem onEvent_missing_content_throws_counterexample :
    onEventSync "@smsbot:example.org" "example.org" []
      { type := "m.room.member", sender := "@alice:example.org"
        room_id := "!r:example.org", state_key := some "@smsbot:example.org"
        content := none } = Except.error JSError.typeError := rfl

/-- C9 amended: the entry point does not catch anything; it throws a
synchronous TypeError on a membership event with missing content (or missing
state key on an invite), and it completes without throwing on every event
whose membership payload carries a content object and a state key. -/
theorem onEvent_wellformed_no_throw
    (botId domain : String) (d : Dir) (ev : MatrixEvent)
    (hwf : ev.type = "m.room.member" → ev.content.isSome = true ∧ ev.state_key.isSome = true) :
    ∃ r, onEventSync botId domain d ev = Except.ok r := by
  unfold onEventSync
  by_cases ht : ev.type = "m.room.member"
  · obtain ⟨hc, hs⟩ := hwf ht
    cases hcv : ev.content with
    | none => rw [hcv] at hc; simp at hc
    | some c =>
      cases hsv : ev.state_key with
      | none => rw [hsv] at hs; simp at hs
      | some sk =>
        by_cases hm : (c.membership == some "invite") = true
        · obtain ⟨b, hb⟩ := isBridgeUser_str_ok botId domain sk
          cases b <;> simp [ht, hcv, hsv, hm, jsValOfOpt, hb]
        · simp [ht, hcv, hm]
  · have ht2 : (ev.type == "m.room.member") = false := by simp [ht]
    by_cases hmsg : (ev.type == "m.room.message" && !(ev.sender == botId)) = true
    · refine ⟨((dirGet d ev.room_id).isSome, RouteAction.relayMessage), ?_⟩
      simp [ht2, hmsg]
    · refine ⟨((dirGet d ev.room_id).isSome, RouteAction.noop), ?_⟩
      simp [ht2, hmsg]

/-- Witness for the amended C9 at a well-formed invite event. -/
theorem onEvent_wellformed_no_throw_witness :
    ∃ r, onEventSync "@smsbot:example.org" "example.org" []
      { type := "m.room.member", sender := "@alice:example.org"
        room_id := "!r:example.org", state_key := some "@smsbot:example.org"
        content := some { membership := some "invite" } } = Except.ok r :=
  onEvent_wellformed_no_throw "@smsbot:example.org" "example.org" []
    { type := "m.room.member", sender := "@alice:example.org"
      room_id := "!r:example.org", state_key := some "@smsbot:example.org"
      content := some { membership := some "invite" } }
    (fun _ => ⟨rfl, rfl⟩)

/-- C10: when getOrCreateAdminRoom misses the owner scan and creates a room,
the classification of the new room runs with `newRoom` left at its default
of false, so the call never sends the welcome notice. -/
theorem getOrCreate_created_room_gets_no_welcome
    (botId userId freshRoomId : String) (members : List String) (d : Dir) (out : CreateOut)
    (hmiss : getByOwner d userId = none)
    (hok : getOrCreateAdminRoom botId userId freshRoomId members d = Except.ok out) :
    out.welcomeSent = false := by
  simp only [getOrCreateAdminRoom, hmiss] at hok
  split at hok
  · have h := Except.ok.inj hok
    rw [← h]
    exact processRoom_not_new_no_welcome botId freshRoomId members (some userId) d
  · exact Except.noConfusion hok

/-- Witness for C10 at a fresh room created for `@alice`. -/
theorem getOrCreate_created_room_gets_no_welcome_witness :
    ({ room := { roomId := "!new:example.org", owner := some "@alice:example.org" }
       dir := [("!new:example.org",
         { roomId := "!new:example.org", owner := some "@alice:example.org" })]
       welcomeSent := false, roomsCreated := 1 } : CreateOut).welcomeSent = false :=
  getOrCreate_created_room_gets_no_welcome "@smsbot:example.org" "@alice:example.org"
    "!new:example.org" ["@smsbot:example.org"] [] _ rfl rfl

end SmsBridgeModel
